import Mathlib

/-!
Shallow embedding of the deterministic astrology rules engine of
Vedaz Astro Lite (`src/astrology.ts`): sun-sign interval lookup,
numerology digit reduction, cyclic Chinese zodiac, lucky-value
derivation, the seeded daily-message selector, the profile composer
and the rule-based Q&A fallback.  Machine arithmetic is modelled with
`Nat`/`Int` (32-bit unsigned wraparound as `% 2^32`, JavaScript's `%`
on integers as `Int.tmod`); strings are Lean `String`s, with
`charCodeAt` modelled as the character's code point (exact on the
basic multilingual plane) and `toLowerCase` as ASCII lowercasing.
-/

namespace Astro

/-- The element union type of `AstroProfile` ('Fire' | 'Earth' | 'Air' | 'Water'). -/
inductive Element where
  | Fire
  | Earth
  | Air
  | Water
deriving DecidableEq

/-- The modality union type of `AstroProfile` ('Cardinal' | 'Fixed' | 'Mutable'). -/
inductive Modality where
  | Cardinal
  | Fixed
  | Mutable
deriving DecidableEq

/-- String rendering of an element, as interpolated into templates. -/
def elementStr : Element → String
  | .Fire => "Fire"
  | .Earth => "Earth"
  | .Air => "Air"
  | .Water => "Water"

/-- String rendering of a modality, as interpolated into templates. -/
def modalityStr : Modality → String
  | .Cardinal => "Cardinal"
  | .Fixed => "Fixed"
  | .Mutable => "Mutable"

/-- The `BirthInput` record: name, ISO date text, 24h time text, place,
timezone offset text. -/
structure BirthInput where
  name : String
  date : String
  time : String
  place : String
  tzOffset : String
deriving DecidableEq

/-- The `AstroProfile` record produced by `profileFromBirth`. -/
structure AstroProfile where
  name : String
  sunSign : String
  element : Element
  modality : Modality
  lifePath : Nat
  chineseAnimal : String
  luckyColor : String
  luckyNumber : Nat
  summary : String
deriving DecidableEq

/-- One row of `SIGN_TABLE`: sign name, start month/day, end month/day,
element, modality. -/
structure SignRecord where
  name : String
  startM : Nat
  startD : Nat
  endM : Nat
  endD : Nat
  element : Element
  modality : Modality
deriving DecidableEq

/-- The static 12-row sign table (`SIGN_TABLE`), Capricorn wrapping the year. -/
def SIGN_TABLE : List SignRecord :=
  [⟨"Capricorn", 12, 22, 1, 19, .Earth, .Cardinal⟩,
   ⟨"Aquarius", 1, 20, 2, 18, .Air, .Fixed⟩,
   ⟨"Pisces", 2, 19, 3, 20, .Water, .Mutable⟩,
   ⟨"Aries", 3, 21, 4, 19, .Fire, .Cardinal⟩,
   ⟨"Taurus", 4, 20, 5, 20, .Earth, .Fixed⟩,
   ⟨"Gemini", 5, 21, 6, 20, .Air, .Mutable⟩,
   ⟨"Cancer", 6, 21, 7, 22, .Water, .Cardinal⟩,
   ⟨"Leo", 7, 23, 8, 22, .Fire, .Fixed⟩,
   ⟨"Virgo", 8, 23, 9, 22, .Earth, .Mutable⟩,
   ⟨"Libra", 9, 23, 10, 22, .Air, .Cardinal⟩,
   ⟨"Scorpio", 10, 23, 11, 21, .Water, .Fixed⟩,
   ⟨"Sagittarius", 11, 22, 12, 21, .Fire, .Mutable⟩]

/-- The interval-containment test of the `getSunSign` loop body:
`afterStart`/`beforeEnd` comparisons, ordinary interval when
`startM <= endM`, wraparound disjunction otherwise. -/
def matchesSign (m d : Nat) (r : SignRecord) : Bool :=
  let afterStart := decide (m > r.startM) || (decide (m = r.startM) && decide (d ≥ r.startD))
  let beforeEnd := decide (m < r.endM) || (decide (m = r.endM) && decide (d ≤ r.endD))
  (decide (r.startM ≤ r.endM) && afterStart && beforeEnd) ||
    (decide (r.startM > r.endM) && (afterStart || beforeEnd))

/-- The `getSunSign` scan over month/day: first matching row of
`SIGN_TABLE` wins; the fallback return value is the Capricorn triple. -/
def getSunSignMD (m d : Nat) : String × Element × Modality :=
  match SIGN_TABLE.find? (matchesSign m d) with
  | some r => (r.name, r.element, r.modality)
  | none => ("Capricorn", .Earth, .Cardinal)

/-- `Number` applied to the characters of a digit string, as used by
`toDateParts` and `chineseZodiacFromYear` on well-formed date text
(`Number('') = 0`; non-digit text, which yields `NaN` in JavaScript, is
outside every theorem below). -/
def parseNum (l : List Char) : Nat :=
  l.foldl (fun acc c => acc * 10 + (c.toNat - 48)) 0

/-- `String.prototype.split('-')` on the character list: cut at every
'-' separator. -/
def splitDash : List Char → List Char → List (List Char)
  | [], acc => [acc.reverse]
  | c :: rest, acc =>
      if c = '-' then acc.reverse :: splitDash rest [] else splitDash rest (c :: acc)

/-- `toDateParts`: split the ISO date on '-' and parse the three fields
(a malformed split yields the zero triple; JavaScript destructuring
would yield `NaN`s there, which no theorem below relies on). -/
def toDateParts (s : String) : Nat × Nat × Nat :=
  match (splitDash s.data []).map parseNum with
  | [y, m, d] => (y, m, d)
  | _ => (0, 0, 0)

/-- `getSunSign` on ISO date text: parse, then scan the table
(the year is parsed but unused, as in the source). -/
def getSunSign (isoDate : String) : String × Element × Modality :=
  let p := toDateParts isoDate
  getSunSignMD p.2.1 p.2.2

/-- The per-sign trait table (`SIGN_TRAITS`), an object keyed by sign name. -/
def SIGN_TRAITS : List (String × List String) :=
  [("Aries", ["bold", "energetic", "decisive", "pioneering"]),
   ("Taurus", ["steady", "sensual", "practical", "loyal"]),
   ("Gemini", ["curious", "adaptable", "witty", "communicative"]),
   ("Cancer", ["nurturing", "intuitive", "protective", "empathetic"]),
   ("Leo", ["confident", "creative", "warm", "charismatic"]),
   ("Virgo", ["analytical", "helpful", "meticulous", "grounded"]),
   ("Libra", ["harmonious", "diplomatic", "fair", "aesthetic"]),
   ("Scorpio", ["intense", "transformational", "private", "magnetic"]),
   ("Sagittarius", ["expansive", "optimistic", "philosophical", "adventurous"]),
   ("Capricorn", ["ambitious", "disciplined", "resilient", "strategic"]),
   ("Aquarius", ["visionary", "inventive", "independent", "humanitarian"]),
   ("Pisces", ["dreamy", "compassionate", "artistic", "mystical"])]

/-- The per-sign lucky-color table (`SIGN_COLORS`), hex strings. -/
def SIGN_COLORS : List (String × String) :=
  [("Aries", "#ef4444"), ("Taurus", "#22c55e"), ("Gemini", "#06b6d4"),
   ("Cancer", "#14b8a6"), ("Leo", "#f59e0b"), ("Virgo", "#84cc16"),
   ("Libra", "#a78bfa"), ("Scorpio", "#e11d48"), ("Sagittarius", "#f97316"),
   ("Capricorn", "#64748b"), ("Aquarius", "#38bdf8"), ("Pisces", "#60a5fa")]

/-- The fixed 12-animal cycle (`CHINESE_ANIMALS`). -/
def CHINESE_ANIMALS : List String :=
  ["Rat", "Ox", "Tiger", "Rabbit", "Dragon", "Snake", "Horse", "Goat",
   "Monkey", "Rooster", "Dog", "Pig"]

/-- Decimal digit sum of `n` (`n.toString().split('').map(Number)` summed),
written with an explicit fuel argument so the definition is structural;
`fuel = n` always suffices since `n / 10 < n` for `n > 0`. -/
def digitsSumAux : Nat → Nat → Nat
  | 0, _ => 0
  | fuel + 1, n => if n = 0 then 0 else n % 10 + digitsSumAux fuel (n / 10)

/-- Decimal digit sum of `n`. -/
def digitsSum (n : Nat) : Nat :=
  digitsSumAux n n

/-- The `reduceDigits` while-loop body, with an explicit fuel argument so
the definition is structural; `fuel = n` always suffices because the digit
sum of an `n > 9` is strictly smaller than `n`. -/
def reduceDigitsAux : Nat → Nat → Nat
  | 0, n => n
  | fuel + 1, n =>
      if n > 9 ∧ n ∉ [11, 22, 33] then reduceDigitsAux fuel (digitsSum n) else n

/-- `reduceDigits`: re-sum decimal digits while the value exceeds 9 and is
not a master number (11, 22, 33). -/
def reduceDigits (n : Nat) : Nat :=
  reduceDigitsAux n n

/-- The character class of the regex `[0-9]` used by
`isoDate.replace(/[^0-9]/g, '')`. -/
def isDigitChar (c : Char) : Bool :=
  decide (48 ≤ c.toNat) && decide (c.toNat ≤ 57)

/-- The digit values of the date text after stripping non-digits
(`.replace(/[^0-9]/g, '').split('').map(Number)`); `Number` of a single
digit character is its code point minus 48. -/
def dateDigits (s : String) : List Nat :=
  (s.data.filter isDigitChar).map (fun c => c.toNat - 48)

/-- `lifePathFromDate`: digit-sum the date text, then `reduceDigits`. -/
def lifePathFromDate (isoDate : String) : Nat :=
  reduceDigits (dateDigits isoDate).sum

/-- The year-to-animal core of `chineseZodiacFromYear`:
`idx = (y - 2008) % 12` with JavaScript's truncated `%` (`Int.tmod`),
`pos = (idx + 12) % 12`, then index the animal list. -/
def chineseAnimalOfYear (y : Int) : String :=
  let idx := (y - 2008).tmod 12
  let pos := (idx + 12).tmod 12
  CHINESE_ANIMALS.getD pos.toNat ""

/-- `chineseZodiacFromYear`: `Number(isoDate.slice(0, 4))`, then the
12-year cycle. -/
def chineseZodiacFromYear (isoDate : String) : String :=
  chineseAnimalOfYear (parseNum (isoDate.data.take 4) : Nat)

/-- `luckyNumber`: fixed 9-entry permutation table indexed by
`(lifePath - 1) % table.length` (an out-of-range JavaScript index would
yield `undefined`; the default 0 below is never reached for the
life-path values the engine produces). -/
def luckyNumber (lifePath : Nat) : Nat :=
  let table := [3, 6, 9, 2, 1, 8, 7, 5, 4]
  table.getD ((lifePath - 1) % table.length) 0

/-- `profileFromBirth`: compose sun sign, life path, Chinese zodiac,
lucky color (sign-keyed with default `#38bdf8`), lucky number, traits
(sign-keyed with default `[]`) and the interpolated summary paragraph. -/
def profileFromBirth (input : BirthInput) : AstroProfile :=
  let sun := getSunSign input.date
  let life := lifePathFromDate input.date
  let chinese := chineseZodiacFromYear input.date
  let color := (SIGN_COLORS.lookup sun.1).getD "#38bdf8"
  let lucky := luckyNumber life
  let traits := (SIGN_TRAITS.lookup sun.1).getD []
  let summary := input.name ++ ", you're a " ++ sun.1 ++ " (" ++ elementStr sun.2.1 ++
    ", " ++ modalityStr sun.2.2 ++ "). Traits: " ++
    String.intercalate ", " (traits.take 3) ++ ". Life Path " ++ toString life ++
    ". Chinese Zodiac: " ++ chinese ++ "."
  { name := input.name
    sunSign := sun.1
    element := sun.2.1
    modality := sun.2.2
    lifePath := life
    chineseAnimal := chinese
    luckyColor := color
    luckyNumber := lucky
    summary := summary }

/-- The 32-bit FNV-1a-style accumulator of `seedFrom`: per character,
XOR in the code and multiply by 16777619 with 32-bit wraparound
(`Math.imul` followed by the final `>>> 0`, in unsigned representation). -/
def seedHash (s : String) : Nat :=
  s.data.foldl (fun h c => ((h ^^^ c.toNat) * 16777619) % 4294967296) 2166136261

/-- `seedFrom`: the hash normalized to `[0, 1)` by dividing by `2^32`
(exact here: both numerator and denominator are below `2^53`, so the
JavaScript float division is the rational value). -/
def seedFrom (s : String) : Rat :=
  (seedHash s : Rat) / 4294967296

/-- The fixed 7-entry affirmation list (`DAILY_AFFIRM`). -/
def DAILY_AFFIRM : List String :=
  ["Trust the process; your path unfolds as you act.",
   "Small consistent steps beat rare bursts of effort.",
   "Ask for help; collaboration brings faster clarity.",
   "Rest fuels insight—balance doing with being.",
   "Lead with kindness; it compounds quietly.",
   "Be curious; questions unlock opportunities.",
   "Declutter one thing; make room for growth."]

/-- `dailyMessage`: seed from `name + isoDate`, scale by the list length,
floor, and index the affirmation list (`Math.floor` is `Int.floor`; a
JavaScript out-of-range index would yield `undefined`, and the default
below is proved unreachable). -/
def dailyMessage (name isoDate : String) : String :=
  let seed := seedFrom (name ++ isoDate)
  let idx := ⌊seed * (DAILY_AFFIRM.length : Rat)⌋
  DAILY_AFFIRM.getD idx.toNat ""

/-- The keyword priority list of `qaFallback`, in source order. -/
def KEYWORDS : List String :=
  ["career", "job", "work", "internship", "study", "exam", "love",
   "relationship", "marriage", "health", "money", "finance", "wealth"]

/-- `String.prototype.toLowerCase`, modelled as per-character ASCII
lowercasing (exact on the ASCII questions and keywords involved). -/
def lowerStr (s : String) : String :=
  String.mk (s.data.map Char.toLower)

/-- `s.includes(pat)`: `pat` occurs contiguously inside `s`. -/
def strIncludes (s pat : String) : Bool :=
  decide (pat.data <:+: s.data)

/-- The `switch (key)` dispatch of `qaFallback`, factored out as a
function of the matched keyword, the profile and the interpolated
`base` text: topic buckets (each JavaScript case group becomes one
equality disjunction) with element/modality sub-branching; the final
`else` is the `default` clarify-intention template.  Every arm prefixes
the same `base` text. -/
def qaTopic (key : Option String) (profile : AstroProfile) (base : String) : String :=
  if key = some "career" ∨ key = some "job" ∨ key = some "work" ∨ key = some "internship" then
    base ++ (match profile.element with
      | .Fire =>
          "act boldly the next 7–10 days; pitch ideas and network. Document wins daily; momentum is your ally."
      | .Earth =>
          "focus on process—refactor routines, learn one automation, and ship one small improvement this week."
      | .Air =>
          "ideate and communicate—write a one‑page plan, seek feedback, and iterate fast."
      | .Water =>
          "trust intuition—choose fewer, deeper tasks; avoid overcommitting; flow > force.")
  else if key = some "study" ∨ key = some "exam" then
    base ++ (match profile.modality with
      | .Mutable =>
          "use spaced repetition + quick quizzes; rotate subjects to stay engaged."
      | .Fixed =>
          "create a strict block schedule; deep work in 50‑min chunks, minimal context switching."
      | .Cardinal =>
          "start with an outline and teach-back method; you'll learn fastest by explaining.")
  else if key = some "love" ∨ key = some "relationship" ∨ key = some "marriage" then
    base ++ "name your needs directly this week; schedule one shared ritual. Tiny, reliable gestures beat grand promises."
  else if key = some "health" then
    base ++ "prioritize sleep consistency and light morning movement; pick one nourishing meal you can repeat."
  else if key = some "money" ∨ key = some "finance" ∨ key = some "wealth" then
    base ++ "do a 30‑minute review: subscriptions, 1% saving bump, and one low‑risk upskill investment."
  else
    base ++ "clarify intention in one sentence, take the smallest next step today, and review results in 48 hours."

/-- `qaFallback`: lower-case the question, find the first keyword of
`KEYWORDS` contained in it, and dispatch through `qaTopic` with the
interpolated `base` text. -/
def qaFallback (question : String) (profile : AstroProfile) : String :=
  qaTopic (KEYWORDS.find? fun k => strIncludes (lowerStr question) k) profile
    ("As a " ++ profile.sunSign ++ " (" ++ elementStr profile.element ++
      "), Life Path " ++ toString profile.lifePath ++ ": ")

/-! Helper lemmas. -/

/-- Finite check behind the partition property: for every month/day pair
in range, exactly one row of `SIGN_TABLE` matches and the scan returns
that row's triple. -/
lemma sunSign_partition_aux :
    ∀ m < 12, ∀ d < 31,
      (SIGN_TABLE.filter (matchesSign (m + 1) (d + 1))).length = 1 ∧
      ∀ r ∈ SIGN_TABLE, matchesSign (m + 1) (d + 1) r = true →
        getSunSignMD (m + 1) (d + 1) = (r.name, r.element, r.modality) := by
  decide

/-- Digit reduction of any positive value up to 72 (the largest digit sum
of an 8-digit date) lands in the life-path value set. -/
lemma reduceDigits_mem_aux :
    ∀ n < 73, 1 ≤ n →
      reduceDigits n ∈ ([1, 2, 3, 4, 5, 6, 7, 8, 9, 11, 22, 33] : List Nat) := by
  decide

/-- The FNV-style accumulator stays below `2^32`. -/
lemma seedHash_lt (s : String) : seedHash s < 4294967296 := by
  have h : ∀ (l : List Char) (h₀ : Nat), h₀ < 4294967296 →
      l.foldl (fun h c => ((h ^^^ c.toNat) * 16777619) % 4294967296) h₀ < 4294967296 := by
    intro l
    induction l with
    | nil => intro h₀ hh; simpa using hh
    | cons c rest ih =>
        intro h₀ _
        exact ih _ (Nat.mod_lt _ (by norm_num))
  exact h s.data 2166136261 (by norm_num)

/-- A substring of `t` is a substring of `s ++ t`. -/
lemma strIncludes_append_of_right (s t pat : String)
    (h : strIncludes t pat = true) : strIncludes (s ++ t) pat = true := by
  simp only [strIncludes, decide_eq_true_eq] at h ⊢
  obtain ⟨u, v, huv⟩ := h
  exact ⟨s.data ++ u, v, by rw [String.data_append, ← huv]; simp⟩

/-- A string whose left component is non-empty is non-empty. -/
lemma length_append_left_pos (s t : String) (h : 0 < s.length) :
    0 < (s ++ t).length := by
  rw [String.length_append]; omega

/-- JavaScript's truncated `%` by 12 stays strictly above `-12`. -/
lemma neg_twelve_lt_tmod (z : Int) : -12 < z.tmod 12 := by
  rcases le_or_lt 0 z with h | h
  · have := Int.tmod_nonneg 12 h
    omega
  · have ha : (-z).tmod 12 < 12 := Int.tmod_lt_of_pos (-z) (by norm_num)
    have hb : (-z).tmod 12 = -(z.tmod 12) := by
      rw [Int.tmod_def, Int.tmod_def, Int.neg_tdiv]
      ring
    omega

/-- The double-mod `((z % 12) + 12) % 12` of the source (truncated `%`)
is the Euclidean remainder of `z` by 12. -/
lemma tmod_plus_twelve (z : Int) : (z.tmod 12 + 12).tmod 12 = z % 12 := by
  have h1 := neg_twelve_lt_tmod z
  rw [Int.tmod_eq_emod (by omega) (by norm_num), Int.tmod_def]
  have h2 : z - 12 * z.tdiv 12 + 12 = z + 12 * (1 - z.tdiv 12) := by ring
  rw [h2, Int.add_mul_emod_self_left]

/-- Adding 12 to the year does not change the double-mod index. -/
lemma chineseAnimal_add_twelve (y : Int) :
    chineseAnimalOfYear (y + 12) = chineseAnimalOfYear y := by
  have hidx : ((y + 12 - 2008).tmod 12 + 12).tmod 12 =
      ((y - 2008).tmod 12 + 12).tmod 12 := by
    rw [tmod_plus_twelve, tmod_plus_twelve]
    omega
  simp only [chineseAnimalOfYear, hidx]

/-- Every arm of the keyword dispatch returns the `base` text followed by
some template text. -/
lemma qaTopic_shape (key : Option String) (p : AstroProfile) (base : String) :
    ∃ t : String, qaTopic key p base = base ++ t := by
  unfold qaTopic
  repeat' split
  all_goals exact ⟨_, rfl⟩

/-! Claim theorems. -/

/-- C1: for every month in 1..12 and day in 1..31 (a superset of the
valid calendar pairs), exactly one record of the 12-entry sign table
passes the interval-containment test, and the `getSunSign` scan returns
that record's (sign, element, modality); the boundary dates 03-21,
03-20, 12-21, 12-22, 01-19 and 01-20 map to Aries, Pisces, Sagittarius,
Capricorn, Capricorn and Aquarius respectively, and the string-level
`getSunSign` is the scan applied to the parsed month and day. -/
theorem sunSign_unique_match_and_boundaries :
    (getSunSignMD 3 21 = ("Aries", Element.Fire, Modality.Cardinal) ∧
     getSunSignMD 3 20 = ("Pisces", Element.Water, Modality.Mutable) ∧
     getSunSignMD 12 21 = ("Sagittarius", Element.Fire, Modality.Mutable) ∧
     getSunSignMD 12 22 = ("Capricorn", Element.Earth, Modality.Cardinal) ∧
     getSunSignMD 1 19 = ("Capricorn", Element.Earth, Modality.Cardinal) ∧
     getSunSignMD 1 20 = ("Aquarius", Element.Air, Modality.Fixed)) ∧
    (∀ s : String, getSunSign s = getSunSignMD (toDateParts s).2.1 (toDateParts s).2.2) ∧
    ∀ m d : Nat, 1 ≤ m → m ≤ 12 → 1 ≤ d → d ≤ 31 →
      (SIGN_TABLE.filter (matchesSign m d)).length = 1 ∧
      ∀ r ∈ SIGN_TABLE, matchesSign m d r = true →
        getSunSignMD m d = (r.name, r.element, r.modality) := by
  refine ⟨by decide, fun s => rfl, ?_⟩
  intro m d h1 h2 h3 h4
  have H := sunSign_partition_aux (m - 1) (by omega) (d - 1) (by omega)
  have hm : m - 1 + 1 = m := by omega
  have hd : d - 1 + 1 = d := by omega
  rw [hm, hd] at H
  exact H

/-- C1 witness: the quantified part of the sign-table partition property
instantiated at July 4 (Cancer). -/
theorem sunSign_unique_match_witness :
    (SIGN_TABLE.filter (matchesSign 7 4)).length = 1 ∧
    ∀ r ∈ SIGN_TABLE, matchesSign 7 4 r = true →
      getSunSignMD 7 4 = (r.name, r.element, r.modality) :=
  sunSign_unique_match_and_boundaries.2.2 7 4 (by decide) (by decide) (by decide) (by decide)

/-- C2 counterexample: a date string with year 2020 yields "Rat", not
"Dragon" as the claim states (2020 is 2008 + 12, hence index 0 again). -/
theorem chineseZodiac_2020_spec_counterexample :
    chineseZodiacFromYear "2020-07-15" = "Rat" ∧
    chineseZodiacFromYear "2020-07-15" ≠ "Dragon" := by
  constructor
  · decide
  · decide

/-- C2 (amended): `chineseZodiacFromYear` returns "Rat" for every date
string whose year is 2008 and also "Rat" (not "Dragon") for every date
string whose year is 2020, and the epoch year 2008 maps to index 0 of
the animal list, which is "Rat". -/
theorem chineseZodiac_2008_2020_rat :
    (∀ s : String, s.data.take 4 = "2008".data → chineseZodiacFromYear s = "Rat") ∧
    (∀ s : String, s.data.take 4 = "2020".data → chineseZodiacFromYear s = "Rat") ∧
    chineseAnimalOfYear 2008 = CHINESE_ANIMALS.getD 0 "" ∧
    CHINESE_ANIMALS.getD 0 "" = "Rat" := by
  refine ⟨?_, ?_, by decide, by decide⟩
  · intro s h
    simp only [chineseZodiacFromYear, h]
    decide
  · intro s h
    simp only [chineseZodiacFromYear, h]
    decide

/-- C2 witness: the amended claim instantiated at two concrete dates. -/
theorem chineseZodiac_2008_2020_rat_witness :
    chineseZodiacFromYear "2008-03-14" = "Rat" ∧
    chineseZodiacFromYear "2020-12-25" = "Rat" :=
  ⟨chineseZodiac_2008_2020_rat.1 "2008-03-14" (by decide),
   chineseZodiac_2008_2020_rat.2.1 "2020-12-25" (by decide)⟩

/-- C3: `lifePathFromDate` strips non-digits, sums the digits and
reduces: "1990-01-01" has digit sum 21 and life path 3; the reduction
stops at the master number 11, so 29 reduces to 11 (not 2), and every
date text whose digit sum is 29 has life path 11. -/
theorem lifePath_reduction_and_master :
    lifePathFromDate "1990-01-01" = 3 ∧
    (dateDigits "1990-01-01").sum = 21 ∧
    reduceDigits 21 = 3 ∧
    reduceDigits 29 = 11 ∧
    ∀ s : String, (dateDigits s).sum = 29 → lifePathFromDate s = 11 := by
  refine ⟨by decide, by decide, by decide, by decide, ?_⟩
  intro s h
  simp only [lifePathFromDate, h]
  decide

/-- C3 witness: "1990-05-05" has digit sum 29 and life path 11. -/
theorem lifePath_reduction_witness :
    (dateDigits "1990-05-05").sum = 29 ∧ lifePathFromDate "1990-05-05" = 11 :=
  ⟨by decide, lifePath_reduction_and_master.2.2.2.2 "1990-05-05" (by decide)⟩

/-- C4: for every life-path value in {1..9, 11, 22, 33}, `luckyNumber`
equals the fixed permutation table [3,6,9,2,1,8,7,5,4] at index
(lifePath - 1) mod 9 — the same formula for the master numbers, no
special-casing — and the result is between 1 and 9. -/
theorem luckyNumber_table_and_range :
    ∀ lp ∈ ([1, 2, 3, 4, 5, 6, 7, 8, 9, 11, 22, 33] : List Nat),
      luckyNumber lp = [3, 6, 9, 2, 1, 8, 7, 5, 4].getD ((lp - 1) % 9) 0 ∧
      1 ≤ luckyNumber lp ∧ luckyNumber lp ≤ 9 := by
  decide

/-- C4 witness: the master number 22 goes through the same modular
formula, giving table index 3 and lucky number 2. -/
theorem luckyNumber_table_witness :
    luckyNumber 22 = [3, 6, 9, 2, 1, 8, 7, 5, 4].getD ((22 - 1) % 9) 0 ∧
    1 ≤ luckyNumber 22 ∧ luckyNumber 22 ≤ 9 :=
  luckyNumber_table_and_range 22 (by decide)

/-- C5: `dailyMessage` hashes name + date, normalizes the 32-bit value
to [0,1) and floors the product with the list length, so the index is
always in bounds and the result is an element of the fixed 7-entry
affirmation list; identical (name, date) arguments yield the identical
string. -/
theorem dailyMessage_in_list_and_deterministic :
    (∀ name isoDate : String, dailyMessage name isoDate ∈ DAILY_AFFIRM) ∧
    (∀ n₁ d₁ n₂ d₂ : String, n₁ = n₂ → d₁ = d₂ →
      dailyMessage n₁ d₁ = dailyMessage n₂ d₂) := by
  constructor
  · intro name isoDate
    simp only [dailyMessage]
    have hb : seedHash (name ++ isoDate) < 4294967296 := seedHash_lt _
    have hseed0 : (0 : Rat) ≤ seedFrom (name ++ isoDate) := by
      unfold seedFrom
      positivity
    have hseed1 : seedFrom (name ++ isoDate) < 1 := by
      unfold seedFrom
      rw [div_lt_one (by norm_num)]
      exact_mod_cast hb
    have hq0 : 0 ≤ seedFrom (name ++ isoDate) * (DAILY_AFFIRM.length : Rat) :=
      mul_nonneg hseed0 (by positivity)
    have hq7 : seedFrom (name ++ isoDate) * (DAILY_AFFIRM.length : Rat) < 7 := by
      have h7 : (DAILY_AFFIRM.length : Rat) = 7 := by norm_num [DAILY_AFFIRM]
      rw [h7]
      have h := mul_lt_mul_of_pos_right hseed1 (show (0 : Rat) < 7 by norm_num)
      simpa using h
    have hfl0 : 0 ≤ ⌊seedFrom (name ++ isoDate) * (DAILY_AFFIRM.length : Rat)⌋ :=
      Int.floor_nonneg.mpr hq0
    have hfl7 : ⌊seedFrom (name ++ isoDate) * (DAILY_AFFIRM.length : Rat)⌋ < 7 :=
      Int.floor_lt.mpr (by exact_mod_cast hq7)
    have hlt : (⌊seedFrom (name ++ isoDate) * (DAILY_AFFIRM.length : Rat)⌋).toNat <
        DAILY_AFFIRM.length := by
      have h := (Int.toNat_lt hfl0).mpr hfl7
      simpa [DAILY_AFFIRM] using h
    rw [List.getD_eq_getElem DAILY_AFFIRM "" hlt]
    exact List.getElem_mem hlt
  · intro n₁ d₁ n₂ d₂ h1 h2
    rw [h1, h2]

/-- C5 witness: the determinism part instantiated at a concrete pair. -/
theorem dailyMessage_witness :
    dailyMessage "Ada" "2025-10-11" = dailyMessage "Ada" "2025-10-11" :=
  dailyMessage_in_list_and_deterministic.2 "Ada" "2025-10-11" "Ada" "2025-10-11" rfl rfl

/-- C6: for every well-formed date text — four year digits, two month
digits forming a month in 1..12, two day digits, separated by dashes —
the life-path value stored by `profileFromBirth` is the value of
`lifePathFromDate` and lies in {1..9, 11, 22, 33}. -/
theorem lifePath_in_master_set
    (y₁ y₂ y₃ y₄ mo₁ mo₂ da₁ da₂ : Char) (input : BirthInput)
    (hy₁ : isDigitChar y₁ = true) (hy₂ : isDigitChar y₂ = true)
    (hy₃ : isDigitChar y₃ = true) (hy₄ : isDigitChar y₄ = true)
    (hmo₁ : isDigitChar mo₁ = true) (hmo₂ : isDigitChar mo₂ = true)
    (hda₁ : isDigitChar da₁ = true) (hda₂ : isDigitChar da₂ = true)
    (hmlo : 1 ≤ 10 * (mo₁.toNat - 48) + (mo₂.toNat - 48))
    (hmhi : 10 * (mo₁.toNat - 48) + (mo₂.toNat - 48) ≤ 12)
    (hdate : input.date.data = [y₁, y₂, y₃, y₄, '-', mo₁, mo₂, '-', da₁, da₂]) :
    (profileFromBirth input).lifePath = lifePathFromDate input.date ∧
    (profileFromBirth input).lifePath ∈ ([1, 2, 3, 4, 5, 6, 7, 8, 9, 11, 22, 33] : List Nat) := by
  have hdash : isDigitChar '-' = false := by decide
  have hdd : dateDigits input.date =
      [y₁.toNat - 48, y₂.toNat - 48, y₃.toNat - 48, y₄.toNat - 48,
       mo₁.toNat - 48, mo₂.toNat - 48, da₁.toNat - 48, da₂.toNat - 48] := by
    simp [dateDigits, hdate, hy₁, hy₂, hy₃, hy₄, hmo₁, hmo₂, hda₁, hda₂, hdash]
  simp only [isDigitChar, Bool.and_eq_true, decide_eq_true_eq] at hy₁ hy₂ hy₃ hy₄ hmo₁ hmo₂ hda₁ hda₂
  have h1 : 1 ≤ (dateDigits input.date).sum := by
    rw [hdd]
    simp only [List.sum_cons, List.sum_nil]
    omega
  have h2 : (dateDigits input.date).sum < 73 := by
    rw [hdd]
    simp only [List.sum_cons, List.sum_nil]
    omega
  refine ⟨rfl, ?_⟩
  have hlp : (profileFromBirth input).lifePath = reduceDigits (dateDigits input.date).sum := rfl
  rw [hlp]
  exact reduceDigits_mem_aux _ h2 h1

/-- C6 witness: the date "1990-01-01" gives a life path in the set. -/
theorem lifePath_in_master_set_witness :
    (profileFromBirth ⟨"Ada", "1990-01-01", "10:00", "Pune, India", "+05:30"⟩).lifePath =
      lifePathFromDate "1990-01-01" ∧
    (profileFromBirth ⟨"Ada", "1990-01-01", "10:00", "Pune, India", "+05:30"⟩).lifePath ∈
      ([1, 2, 3, 4, 5, 6, 7, 8, 9, 11, 22, 33] : List Nat) :=
  lifePath_in_master_set '1' '9' '9' '0' '0' '1' '0' '1'
    ⟨"Ada", "1990-01-01", "10:00", "Pune, India", "+05:30"⟩
    (by decide) (by decide) (by decide) (by decide) (by decide) (by decide)
    (by decide) (by decide) (by decide) (by decide) (by decide)

/-- C7: on the question "How is my career?" with a Fire-element profile,
`qaFallback` answers with the Fire-branch phrase "act boldly"; and on
any question whose lowercased text contains none of the fixed topic
keywords, it answers with the generic clarify-intention template. -/
theorem qaFallback_fire_career_and_default :
    (∀ p : AstroProfile, p.element = Element.Fire →
      strIncludes (qaFallback "How is my career?" p) "act boldly" = true) ∧
    ∀ (question : String) (p : AstroProfile),
      (∀ k ∈ KEYWORDS, strIncludes (lowerStr question) k = false) →
      strIncludes (qaFallback question p) "clarify intention" = true := by
  constructor
  · intro p hp
    have hfind : (KEYWORDS.find? fun k => strIncludes (lowerStr "How is my career?") k) =
        some "career" := by decide
    unfold qaFallback
    rw [hfind]
    have hq : ∀ b : String, qaTopic (some "career") p b =
        b ++ (match p.element with
          | Element.Fire =>
              "act boldly the next 7–10 days; pitch ideas and network. Document wins daily; momentum is your ally."
          | Element.Earth =>
              "focus on process—refactor routines, learn one automation, and ship one small improvement this week."
          | Element.Air =>
              "ideate and communicate—write a one‑page plan, seek feedback, and iterate fast."
          | Element.Water =>
              "trust intuition—choose fewer, deeper tasks; avoid overcommitting; flow > force.") :=
      fun b => rfl
    rw [hq, hp]
    apply strIncludes_append_of_right
    decide
  · intro question p hk
    have hfind : (KEYWORDS.find? fun k => strIncludes (lowerStr question) k) = none :=
      List.find?_eq_none.mpr (fun x hx => by simp [hk x hx])
    unfold qaFallback
    rw [hfind]
    have hq : ∀ b : String, qaTopic none p b =
        b ++ "clarify intention in one sentence, take the smallest next step today, and review results in 48 hours." :=
      fun b => rfl
    rw [hq]
    apply strIncludes_append_of_right
    decide

/-- C7 witness: a concrete Fire profile and the keyword-free question
"hello there". -/
theorem qaFallback_fire_career_witness :
    strIncludes (qaFallback "How is my career?"
      ⟨"A", "Aries", Element.Fire, Modality.Cardinal, 3, "Rat", "#ef4444", 3, "s"⟩)
      "act boldly" = true ∧
    strIncludes (qaFallback "hello there"
      ⟨"A", "Aries", Element.Fire, Modality.Cardinal, 3, "Rat", "#ef4444", 3, "s"⟩)
      "clarify intention" = true :=
  ⟨qaFallback_fire_career_and_default.1 _ rfl,
   qaFallback_fire_career_and_default.2 "hello there" _ (by decide)⟩

/-- C8: `qaFallback` is total — a Lean function defined on all inputs —
and returns a non-empty string for every question and profile, since
every dispatch arm prefixes the non-empty interpolated base text. -/
theorem qaFallback_total_nonempty :
    ∀ (question : String) (p : AstroProfile),
      qaFallback question p ≠ "" ∧ 0 < (qaFallback question p).length := by
  intro question p
  unfold qaFallback
  obtain ⟨t, ht⟩ := qaTopic_shape (KEYWORDS.find? fun k => strIncludes (lowerStr question) k) p
    ("As a " ++ p.sunSign ++ " (" ++ elementStr p.element ++
      "), Life Path " ++ toString p.lifePath ++ ": ")
  rw [ht]
  have h : 0 < (("As a " ++ p.sunSign ++ " (" ++ elementStr p.element ++
      "), Life Path " ++ toString p.lifePath ++ ": ") ++ t).length := by
    apply length_append_left_pos
    repeat apply length_append_left_pos
    decide
  refine ⟨?_, h⟩
  intro he
  rw [he] at h
  simp at h

/-- C9: the cyclic zodiac mapping is periodic with period 12, for all
integer years including those before the 2008 epoch (the double-mod
keeps the index non-negative); consequently two date strings whose
parsed years differ by 12 receive the same animal. -/
theorem chineseZodiac_periodic :
    (∀ y : Int, chineseAnimalOfYear (y + 12) = chineseAnimalOfYear y) ∧
    ∀ s t : String,
      (parseNum (t.data.take 4) : Int) = (parseNum (s.data.take 4) : Int) + 12 →
      chineseZodiacFromYear t = chineseZodiacFromYear s := by
  refine ⟨chineseAnimal_add_twelve, ?_⟩
  intro s t h
  simp only [chineseZodiacFromYear]
  rw [h]
  exact chineseAnimal_add_twelve _

/-- C9 witness: 1996 (before the epoch is not needed here, but 1996 is
2008 - 12) and 2008 receive the same animal. -/
theorem chineseZodiac_periodic_witness :
    chineseZodiacFromYear "2008-01-01" = chineseZodiacFromYear "1996-05-05" :=
  chineseZodiac_periodic.2 "1996-05-05" "2008-01-01" (by decide)

/-- C10: `profileFromBirth` depends only on the name and date fields:
two inputs agreeing on name and date but differing arbitrarily in time,
place and timezone offset produce identical profiles, summary included. -/
theorem profileFromBirth_only_name_date :
    ∀ i₁ i₂ : BirthInput, i₁.name = i₂.name → i₁.date = i₂.date →
      profileFromBirth i₁ = profileFromBirth i₂ := by
  intro i₁ i₂ hn hd
  cases i₁
  cases i₂
  dsimp only at hn hd
  subst hn
  subst hd
  rfl

/-- C10 witness: two inputs differing in time, place and timezone give
the same profile. -/
theorem profileFromBirth_only_name_date_witness :
    profileFromBirth ⟨"Ada", "1990-01-01", "01:00", "Pune, India", "+05:30"⟩ =
      profileFromBirth ⟨"Ada", "1990-01-01", "23:59", "Paris, France", "-05:00"⟩ :=
  profileFromBirth_only_name_date _ _ rfl rfl

end Astro
